import Mathlib

/-!
# Verification of `s3_uploader.py` (AutomateS3)

Shallow embedding of the AutomateS3 uploader script and proofs about it.
The script scans a directory (flat via `Path.iterdir` or recursive via
`Path.rglob('*')`), classifies files by extension (`determine_prefix`),
derives destination keys, and dispatches uploads sequentially or through a
thread pool.

Modelling conventions:
* Python strings are Lean `String`s; `str.lower()` is modelled by ASCII
  lowercasing (`strLower`), which agrees with Python on all ASCII input —
  the extensions and names handled by the script.
* Python `dict` mappings (from the `--map` JSON file) are association lists
  (`Mapping`); truthiness of a dict corresponds to the list being nonempty.
* File-system trees are the inductive `FSTree`; walker entries carry their
  path (components relative to the scan root) plus `is_dir`/`is_file` flags,
  so entries that are neither (broken symlinks, devices) are representable.
* The body of the gathering loop in `main` (source lines 61-84) is embedded
  as a list of statements (`Stmt`) executed by `runStmts`, where a Python
  `continue` abandons the rest of the current iteration.  This keeps the
  statements that textually follow the early `continue` (source lines 67-84)
  present in the embedding, so their unreachability is a theorem rather than
  a modelling choice.
-/

namespace AutomateS3

/-! ## String helpers (Python semantics) -/

/-- Index of the last occurrence of `c` in `cs`, as in Python `str.rfind`
(`none` when absent). -/
def rfindIdx : List Char → Char → Option Nat
  | [], _ => none
  | a :: as, c =>
    match rfindIdx as c with
    | some i => some (i + 1)
    | none => if a = c then some 0 else none

/-- Python `pathlib.PurePath.suffix` on a final path component: the substring
from the last dot, provided that dot is neither the first nor the last
character; otherwise the empty string. -/
def pySuffix (name : String) : String :=
  let cs := name.data
  match rfindIdx cs '.' with
  | some i => if 0 < i ∧ i + 1 < cs.length then ⟨cs.drop i⟩ else ""
  | none => ""

/-- ASCII lowercasing of one character, as Python `str.lower` acts on ASCII. -/
def pyLowerChar (c : Char) : Char :=
  if 'A' ≤ c ∧ c ≤ 'Z' then Char.ofNat (c.toNat + 32) else c

/-- ASCII lowercasing of a string (models Python `str.lower()` on ASCII
input). -/
def strLower (s : String) : String := ⟨s.data.map pyLowerChar⟩

/-- Python `str.lstrip('.')`: drop every leading dot. -/
def lstripDot (s : String) : String := ⟨s.data.dropWhile (· = '.')⟩

/-- Python `str.rstrip('/')`: drop every trailing slash. -/
def rstripSlash (s : String) : String :=
  ⟨(s.data.reverse.dropWhile (· = '/')).reverse⟩

/-! ## The classifier: `determine_prefix` (source lines 106-129) -/

/-- The `--map` JSON object, modelled as an association list from extension
strings to destination-key prefixes. -/
abbrev Mapping := List (String × String)

/-- The built-in default classification table of ` determine_prefix`
(source lines 124-129): `.py ↦ python`, `.jpg/.jpeg/.png ↦ pictures`. -/
def builtin_defaults (suffix : String) : Option String :=
  if suffix = ".py" then some "python"
  else if suffix = ".jpg" ∨ suffix = ".jpeg" ∨ suffix = ".png" then some "pictures"
  else none

/-- Embedding of `determine_prefix(file_path, mapping)` (source lines
106-129).  `suffix = file_path.suffix.lower()`; when a (truthy, i.e.
nonempty) mapping is supplied, it is consulted first with
`key = suffix.lower()` and then with `key.lstrip('.')`, the first hit being
returned immediately; otherwise the built-in defaults decide.  The argument
`name` is the final path component, on which `Path.suffix` exclusively
depends. -/
def determine_prefix (name : String) (mapping : Option Mapping) : Option String :=
  let suffix := strLower (pySuffix name)
  let fromMap : Option String :=
    match mapping with
    | none => none
    | some m =>
      if m = [] then none
      else
        let key := strLower suffix
        match List.lookup key m with
        | some v => some v
        | none => List.lookup (lstripDot key) m
  match fromMap with
  | some v => some v
  | none => builtin_defaults suffix

/-- The key used for the first mapping lookup in ` determine_prefix`:
the lowercased suffix (the source lowers the already-lowered suffix once
more; we keep that literally). -/
def mapping_key (name : String) : String := strLower (strLower (pySuffix name))

/-- The key used for the second mapping lookup in ` determine_prefix`:
the first key with leading dots stripped. -/
def mapping_key_nodot (name : String) : String := lstripDot (mapping_key name)

/-! ## File-system model and the two iterators of `main` (source line 59) -/

/-- A local file-system tree: regular files and directories. -/
inductive FSTree where
  | file (name : String)
  | dir (name : String) (children : List FSTree)

/-- An entry yielded by `base.iterdir()` or `base.rglob('*')`: its path
components relative to the scan root `base`, and the `is_dir`/`is_file`
predicates.  Keeping the flags separate from the path lets the gathering
loop be stated for arbitrary entries (e.g. broken symlinks, which are
neither). -/
structure Entry where
  path : List String
  is_dir : Bool
  is_file : Bool
deriving DecidableEq, Repr

/-- `p.name`: the final path component. -/
def Entry.name (p : Entry) : String := p.path.getLastD ""

/-- `rel.as_posix()` for the path of an entry relative to the scan root:
components joined with forward slashes. -/
def joinSlash (l : List String) : String := String.intercalate "/" l

mutual

/-- Entries produced by `rglob('*')` for one subtree rooted below `pre`:
the subtree's own entry followed by all of its descendants.  `rglob`
descends into every directory; it performs no exclusion. -/
def rglobTree (pre : List String) : FSTree → List Entry
  | .file n => [⟨pre ++ [n], false, true⟩]
  | .dir n cs => ⟨pre ++ [n], true, false⟩ :: rglobForest (pre ++ [n]) cs

/-- Entries produced by `rglob('*')` for a forest of subtrees. -/
def rglobForest (pre : List String) : List FSTree → List Entry
  | [] => []
  | t :: ts => rglobTree pre t ++ rglobForest pre ts

end

/-- The name of a tree node. -/
def FSTree.name : FSTree → String
  | .file n => n
  | .dir n _ => n

/-- The entry of a direct child of the scan root. -/
def topEntry : FSTree → Entry
  | .file n => ⟨[n], false, true⟩
  | .dir n _ => ⟨[n], true, false⟩

/-- `base.iterdir()`: the direct children of the scan root (whose contents
are the forest `cs`). -/
def iterdirEntries (cs : List FSTree) : List Entry := cs.map topEntry

/-- `base.rglob('*')`: every entry of the whole subtree below the scan
root. -/
def rglobEntries (cs : List FSTree) : List Entry := rglobForest [] cs

/-! ## Tasks and the classification block (source lines 67-84) -/

/-- One element of `files_to_upload`: the tuple `(p, dest_key)`. -/
structure PyTask where
  p : Entry
  dest_key : String
deriving DecidableEq, Repr

/-- The excluded directory names (source line 52). -/
def exclude_dirs : List String := ["env", "__pycache__"]

/-- `Path(__file__).name` (source line 53). -/
def my_name : String := "s3_uploader.py"

/-- Embedding of the classification-and-queueing block, source lines 67-84:
skip the script's own file by name; classify with ` determine_prefix`; skip
when the prefix is falsy (None or the empty string); otherwise build
`dest_key = f"{prefix.rstrip('/')}/{rel.as_posix()}"` where
`rel = p.relative_to(base)`.  Entries enumerated by `iterdir`/`rglob` lie
under `base`, so `relative_to` succeeds and `rel` is the entry's stored
relative path; the `except` fallback to `Path(p.name)` is unreachable for
them.  Returns the task appended to `files_to_upload`, or `none` when the
block `continue`s. -/
def classify_entry (mapping : Option Mapping) (p : Entry) : Option PyTask :=
  if p.name = my_name then none
  else
    match determine_prefix p.name mapping with
    | none => none
    | some pfx =>
      if pfx = "" then none
      else some ⟨p, rstripSlash pfx ++ "/" ++ joinSlash p.path⟩

/-! ## The gathering loop of `main` (source lines 61-84), statement by
statement

A Python `continue` abandons the rest of the loop body, including any
statements that textually follow it in the same suite.  We embed the loop
body as a statement list and make `continue` an explicit control outcome, so
the suite at source lines 67-84 — which follows the `continue` of line 66 —
is present in the embedding and its unreachability is provable, not
assumed. -/

/-- Log lines emitted inside the gathering loop (source lines 68 and 73). -/
inductive LogMsg where
  | skipSelf (p : Entry)
  | skipUnsupported (p : Entry)
deriving DecidableEq, Repr

/-- State threaded through the gathering loop: `files_to_upload` (source
line 56) and the debug log. -/
structure GSt where
  files_to_upload : List PyTask
  logs : List LogMsg
deriving DecidableEq, Repr

/-- Statements of the loop body: `continue`, a conditional with a suite, and
a state-modifying action. -/
inductive Stmt where
  | continueS : Stmt
  | ifThen : (Entry → Bool) → List Stmt → Stmt
  | act : (Entry → GSt → GSt) → Stmt

mutual

/-- Run one statement; the Boolean is `true` when a `continue` fired. -/
def runStmt : Stmt → Entry → GSt → GSt × Bool
  | .continueS, _, st => (st, true)
  | .ifThen c body, p, st => if c p then runStmts body p st else (st, false)
  | .act f, p, st => (f p st, false)

/-- Run a suite of statements, stopping at the first `continue`. -/
def runStmts : List Stmt → Entry → GSt → GSt × Bool
  | [], _, st => (st, false)
  | s :: rest, p, st =>
    match runStmt s p st with
    | (st2, true) => (st2, true)
    | (st2, false) => runStmts rest p st2

end

/-- The suite at source lines 67-84, which textually follows the `continue`
of line 66: self-file skip (with debug log), classification (with debug log
on unsupported types), destination-key construction and queueing. -/
def dead_suite (mapping : Option Mapping) : List Stmt :=
  [ .ifThen (fun p => p.name = my_name)
      [ .act (fun p st => { st with logs := st.logs ++ [.skipSelf p] }),
        .continueS ],
    .ifThen (fun p =>
        match determine_prefix p.name mapping with
        | none => true
        | some pfx => pfx = "")
      [ .act (fun p st => { st with logs := st.logs ++ [.skipUnsupported p] }),
        .continueS ],
    .act (fun p st =>
      match classify_entry mapping p with
      | some t => { st with files_to_upload := st.files_to_upload ++ [t] }
      | none => st) ]

/-- The whole loop body, source lines 61-84: skip excluded directories
(line 63-64); skip non-files (line 65-66) — with the suite of lines 67-84
placed after that `continue`, exactly as in the source. -/
def loopBody (mapping : Option Mapping) : List Stmt :=
  [ .ifThen (fun p => exclude_dirs.contains p.name && p.is_dir) [.continueS],
    .ifThen (fun p => !p.is_file) (.continueS :: dead_suite mapping) ]

/-- The gathering phase of `main` (source lines 56-84): fold the loop body
over the iterator's entries, starting from empty `files_to_upload` and
log. -/
def gather (mapping : Option Mapping) (entries : List Entry) : GSt :=
  entries.foldl (fun st p => (runStmts (loopBody mapping) p st).1) ⟨[], []⟩

/-! ## The walker's candidate filter (source lines 61-65)

The entries of the chosen iterator that survive the two explicit skip
checks — the candidate sequence the (unreachable) classification block would
consider. -/

/-- `true` when the entry passes both skips of the loop: it is not an
excluded directory entry (lines 63-64) and it is a regular file
(lines 65-66). -/
def survives (p : Entry) : Bool :=
  !(exclude_dirs.contains p.name && p.is_dir) && p.is_file

/-- The candidate sequence: iterator output filtered by the loop's two skip
checks. -/
def walk_candidates (cs : List FSTree) (recursive : Bool) : List Entry :=
  (if recursive then rglobEntries cs else iterdirEntries cs).filter survives

/-! ## `upload_file` (source lines 26-40) and the dispatcher
(source lines 86-103) -/

/-- Outcome of one call to the external client's `upload_file`: success, or
an error of the kinds the `except` clause of source line 39 names
(`BotoCoreError`, `ClientError`). -/
inductive UploadOutcome where
  | ok : UploadOutcome
  | err (reason : String) : UploadOutcome
deriving DecidableEq, Repr

/-- Reported result of one task: an info log on success (source line 38) or
an error log on failure (source line 40).  `upload_file` catches the client
errors itself, so it always returns. -/
inductive UploadResult where
  | uploaded (t : PyTask) : UploadResult
  | failedLogged (t : PyTask) (reason : String) : UploadResult
deriving DecidableEq, Repr

/-- The task a result reports on. -/
def UploadResult.task : UploadResult → PyTask
  | .uploaded t => t
  | .failedLogged t _ => t

/-- Embedding of `upload_file(client, p, bucket, dest_key)` (source lines
26-40): one attempt against the external client, whose behaviour is the
parameter `outcome`; `BotoCoreError`/`ClientError` is caught and logged, so
the function returns in either case and never re-raises.  (The best-effort
`mimetypes` content-type hint of lines 31-34 does not affect control flow
and carries no observable state here.) -/
def upload_file (outcome : PyTask → UploadOutcome) (t : PyTask) : UploadResult :=
  match outcome t with
  | .ok => .uploaded t
  | .err r => .failedLogged t r

/-- The sequential branch of `main` (source lines 92-94, `workers <= 1`):
upload each task in walk order. -/
def dispatch_seq (outcome : PyTask → UploadOutcome) (tasks : List PyTask) :
    List UploadResult :=
  tasks.map (upload_file outcome)

/-- The pooled branch of `main` (source lines 95-103, `workers > 1`): every
task is submitted to the pool, and `as_completed` yields each submitted
future exactly once, in a scheduler-chosen order.  `ord` is that choice,
sanitised to a permutation of the submitted tasks (for any non-permutation
the model falls back to submission order; `as_completed` can only ever yield
the submitted futures, each once).  The `try fut.result() except` of lines
100-103 is inert for the modelled outcomes because `upload_file` already
caught the client errors. -/
def dispatch_pool (outcome : PyTask → UploadOutcome) (tasks : List PyTask)
    (ord : List PyTask) : List UploadResult :=
  let completion := if ord.Perm tasks then ord else tasks
  completion.map (upload_file outcome)

/-! ## `main` (source lines 43-103) and the `__main__` block
(source lines 132-153) -/

/-- Observable behaviour of one run of `main`. -/
structure MainRes where
  missingDirError : Bool
  dryRunLines : List PyTask
  results : List UploadResult
deriving DecidableEq, Repr

/-- Embedding of `main(bucket, directory, dry_run, recursive, mapping,
workers)` (source lines 43-103).  `dirContents` is `some cs` when the scan
root exists and its subtree is the forest `cs`, and `none` when it does not
exist — in which case `main` logs an error and returns (lines 48-50).
Then the gathering loop runs over `rglob('*')` or `iterdir()` (lines
56-84); with `dry_run` every gathered task is printed and nothing uploaded
(lines 87-90); with `workers <= 1` the tasks run sequentially (lines 92-94),
otherwise through the pool, `ord` being the scheduler's completion order
(lines 95-103). -/
def pyMain (dirContents : Option (List FSTree)) (dry_run recursive : Bool)
    (mapping : Option Mapping) (workers : Int)
    (outcome : PyTask → UploadOutcome) (ord : List PyTask) : MainRes :=
  match dirContents with
  | none => ⟨true, [], []⟩
  | some cs =>
    let st := gather mapping (if recursive then rglobEntries cs else iterdirEntries cs)
    if dry_run then ⟨false, st.files_to_upload, []⟩
    else if workers ≤ 1 then ⟨false, [], dispatch_seq outcome st.files_to_upload⟩
    else ⟨false, [], dispatch_pool outcome st.files_to_upload ord⟩

/-- Observable behaviour of one run of the script's `__main__` block. -/
structure ScriptRes where
  exitCode : Nat
  mainEntered : Bool
  mainRes : Option MainRes
deriving DecidableEq, Repr

/-- Embedding of the `__main__` block (source lines 132-153).  `mapFile`
models the `--map` option: `none` when absent, `some (.ok m)` when the JSON
file loads and parses to the mapping `m`, `some (.error e)` when reading or
parsing fails.  On a load failure the block logs the error and raises
`SystemExit(1)` before `main` is called (lines 149-151); otherwise `main`
runs and, returning normally, the interpreter exits with status 0. -/
def run_script (dirContents : Option (List FSTree)) (dry_run recursive : Bool)
    (mapFile : Option (Except String Mapping)) (workers : Int)
    (outcome : PyTask → UploadOutcome) (ord : List PyTask) : ScriptRes :=
  match mapFile with
  | some (.error _) => ⟨1, false, none⟩
  | some (.ok m) =>
    ⟨0, true, some (pyMain dirContents dry_run recursive (some m) workers outcome ord)⟩
  | none =>
    ⟨0, true, some (pyMain dirContents dry_run recursive none workers outcome ord)⟩

/-- A destination key "begins with a path separator" when its first
character is `/`. -/
def beginsWithSep (s : String) : Bool := s.data.headD ' ' == '/'

/-! ## Helper lemmas -/

/-- Running the gathering-loop body on any entry leaves the state unchanged:
every control path reaches a `continue` (or falls off the end) before any
state-modifying statement, because the whole classification suite sits after
the `continue` of source line 66. -/
theorem runStmts_loopBody_fst (m : Option Mapping) (p : Entry) (st : GSt) :
    (runStmts (loopBody m) p st).1 = st := by
  by_cases h1 : (exclude_dirs.contains p.name && p.is_dir) = true <;>
    by_cases h2 : (!p.is_file) = true <;>
      simp [loopBody, runStmts, runStmt, h1, h2] <;>
        by_cases h3 : p.name ∈ exclude_dirs ∧ p.is_dir = true <;> simp [h3]

/-- The gathering phase produces no tasks and no logs, for every iterator
output and every mapping. -/
theorem gather_eq_empty (m : Option Mapping) (entries : List Entry) :
    gather m entries = ⟨[], []⟩ := by
  have h : ∀ (l : List Entry) (st : GSt),
      l.foldl (fun st p => (runStmts (loopBody m) p st).1) st = st := by
    intro l
    induction l with
    | nil => intro st; rfl
    | cons a l ih => intro st; rw [List.foldl_cons, runStmts_loopBody_fst]; exact ih st
  simpa [gather] using h entries ⟨[], []⟩

/-- The reported task of an `upload_file` call is the task itself, whatever
the outcome. -/
theorem task_upload_file (o : PyTask → UploadOutcome) (t : PyTask) :
    (upload_file o t).task = t := by
  cases h : o t <;> simp [upload_file, h, UploadResult.task]

/-- Closed form of ` determine_prefix` for a truthy (nonempty) supplied
mapping: the first lookup key wins, then the dotless key, then the built-in
defaults. -/
theorem determine_prefix_closed_form (name : String) (m : Mapping) (hm : ¬ m = []) :
    determine_prefix name (some m)
      = match List.lookup (mapping_key name) m with
        | some v => some v
        | none =>
          match List.lookup (mapping_key_nodot name) m with
          | some v => some v
          | none => builtin_defaults (strLower (pySuffix name)) := by
  simp only [ determine_prefix, mapping_key, mapping_key_nodot, if_neg hm]
  cases h1 : List.lookup (strLower (strLower (pySuffix name))) m with
  | some v => rfl
  | none =>
    cases h2 : List.lookup (lstripDot (strLower (strLower (pySuffix name)))) m with
    | some v => rfl
    | none => rfl

/-- A string of the shape `a ++ "/" ++ b` is never empty. -/
theorem append_sep_ne_empty (a b : String) : a ++ "/" ++ b ≠ "" := by
  intro hc
  have h3 := congrArg String.data hc
  rw [String.data_append, String.data_append] at h3
  have h4 : a.data ++ ['/'] ++ b.data = ([] : List Char) := h3
  simp at h4

/-- The data of `a ++ "/" ++ b` is `a`'s data, a slash, then `b`'s data. -/
theorem data_append_sep (a b : String) :
    (a ++ "/" ++ b).data = a.data ++ '/' :: b.data := by
  rw [String.data_append, String.data_append, List.append_assoc]
  rfl

/-! ## The claims -/

/-- **C1.** In non-recursive (flat) mode, the self-file-skip and
classification logic inside the gathering loop of `main` is unreachable (it
follows the early `continue` of source line 66), so for every directory
scanned with `recursive = false`, no file is ever classified or queued for
upload: the gathered state is empty (no task, no skip/classification log)
for every scan root and mapping — even though the suite following the
`continue`, run on its own on a plain `.py` file entry, would queue a
task. -/
theorem C1_flat_mode_never_classifies_or_queues :
    (∀ (cs : List FSTree) (m : Option Mapping),
        gather m (iterdirEntries cs) = ⟨[], []⟩) ∧
    (runStmts (dead_suite none) ⟨["a.py"], false, true⟩ ⟨[], []⟩).1.files_to_upload
      = [⟨⟨["a.py"], false, true⟩, "python/a.py"⟩] :=
  ⟨fun _ m => gather_eq_empty m _, by decide⟩

/-- **C2.** For every invocation of `main` — with `recursive = true` as well
as `false` — the gathered `files_to_upload` list is empty, so no
classification happens, no dry-run report line is printed, and no upload
ever occurs: the unreachable-code defect is not confined to the
non-recursive path. -/
theorem C2_no_dry_run_lines_and_no_uploads_ever :
    ∀ (dirContents : Option (List FSTree)) (dry_run recursive : Bool)
      (m : Option Mapping) (workers : Int) (outcome : PyTask → UploadOutcome)
      (ord : List PyTask) (cs : List FSTree),
      (gather m (if recursive then rglobEntries cs else iterdirEntries cs)).files_to_upload
          = [] ∧
      (pyMain dirContents dry_run recursive m workers outcome ord).dryRunLines = [] ∧
      (pyMain dirContents dry_run recursive m workers outcome ord).results = [] := by
  intro dirContents dry_run recursive m workers outcome ord cs
  refine ⟨by rw [gather_eq_empty], ?_, ?_⟩ <;>
  · cases dirContents with
    | none => simp [pyMain]
    | some cs2 =>
      simp only [pyMain, gather_eq_empty]
      by_cases hd : dry_run <;> by_cases hw : workers ≤ 1 <;>
        simp [hd, hw, dispatch_seq, dispatch_pool, List.perm_nil]

/-- **C3.** The claim says the recursive walk never descends into a
directory named in the exclusion set (`env`, `__pycache__`), so that no file
below such a directory appears in the candidate sequence considered for
classification and upload.  The code violates this: `rglob('*')` enumerates
the entire subtree and the check of source lines 63-64 only skips the
excluded directory's own entry, not its contents.  Evidence: for a scan root
holding a directory `env` containing `a.py`, the candidate sequence (the
iterator output surviving the loop's two skip checks) is exactly
`[env/a.py]` — a file below the excluded directory `env`. -/
theorem C3_excluded_subtree_file_survives_as_candidate :
    walk_candidates [.dir "env" [.file "a.py"]] true
        = [⟨["env", "a.py"], false, true⟩] ∧
      "env" ∈ exclude_dirs := by
  constructor
  · rfl
  · decide

/-- **C4 counterexample.** The claim says a missing scan root makes the
program terminate with a non-zero exit status.  It does not: `main` merely
logs the error and returns (source lines 48-50), and the `__main__` block
then finishes normally, so the interpreter exits with status 0.  Concretely,
with no `--map`, `workers = 1` and a missing root, the exit code is 0 while
`main` recorded the missing-directory error and did nothing else. -/
theorem C4_missing_root_exits_zero :
    (run_script none false false none 1 (fun _ => UploadOutcome.ok) []).exitCode = 0 ∧
    (run_script none false false none 1 (fun _ => UploadOutcome.ok) []).mainRes
      = some ⟨true, [], []⟩ := by
  exact ⟨rfl, rfl⟩

/-- **C4 (amended).** If the scan root does not exist, the program logs an
error and performs no uploads, but still terminates with exit status 0;
whenever the mapping file loads (or is absent), the exit status on
completion is 0 — even when individual uploads failed (the outcome function
is arbitrary). -/
theorem C4_exit_codes_amended :
    ∀ (dry_run recursive : Bool) (mapFile : Option (Except String Mapping))
      (workers : Int) (outcome : PyTask → UploadOutcome) (ord : List PyTask),
      ((∀ e, mapFile ≠ some (.error e)) →
        ∀ dirContents,
          (run_script dirContents dry_run recursive mapFile workers outcome ord).exitCode
            = 0) ∧
      (∀ r, (run_script none dry_run recursive mapFile workers outcome ord).mainRes
          = some r →
        r.missingDirError = true ∧ r.dryRunLines = [] ∧ r.results = []) := by
  intro dry_run recursive mapFile workers outcome ord
  match mapFile with
  | none =>
    refine ⟨fun _ dc => rfl, fun r hr => ?_⟩
    rw [show (run_script none dry_run recursive none workers outcome ord).mainRes
          = some ⟨true, [], []⟩ from rfl] at hr
    cases hr
    exact ⟨rfl, rfl, rfl⟩
  | some (.ok m) =>
    refine ⟨fun _ dc => rfl, fun r hr => ?_⟩
    rw [show (run_script none dry_run recursive (some (.ok m)) workers outcome ord).mainRes
          = some ⟨true, [], []⟩ from rfl] at hr
    cases hr
    exact ⟨rfl, rfl, rfl⟩
  | some (.error e) =>
    refine ⟨fun h _ => absurd rfl (h e), fun r hr => ?_⟩
    exact absurd hr (by simp [run_script])

/-- **C4 witness.** The amended theorem applied at a concrete input: an
existing empty scan root, no `--map`, one worker, every upload failing —
exit code 0; and the missing-root run records the error with no dry-run
lines and no results. -/
theorem C4_exit_codes_amended_witness :
    (run_script (some []) false false none 1 (fun _ => UploadOutcome.err "x") []).exitCode
        = 0 ∧
      ((⟨true, [], []⟩ : MainRes).missingDirError = true ∧
        (⟨true, [], []⟩ : MainRes).dryRunLines = [] ∧
        (⟨true, [], []⟩ : MainRes).results = []) :=
  ⟨(C4_exit_codes_amended false false none 1 (fun _ => UploadOutcome.err "x") []).1
      (fun e h => by cases h) (some []),
    (C4_exit_codes_amended false false none 1 (fun _ => UploadOutcome.err "x") []).2
      ⟨true, [], []⟩ rfl⟩

/-- **C5.** If the `--map` mapping file cannot be read or parsed as JSON,
the `__main__` block raises `SystemExit(1)` (source lines 149-151): the
process terminates with exit status 1, `main` is never entered, and no
upload is attempted. -/
theorem C5_map_load_failure_is_fatal :
    ∀ (dirContents : Option (List FSTree)) (dry_run recursive : Bool) (e : String)
      (workers : Int) (outcome : PyTask → UploadOutcome) (ord : List PyTask),
      run_script dirContents dry_run recursive (some (.error e)) workers outcome ord
        = ⟨1, false, none⟩ :=
  fun _ _ _ _ _ _ _ => rfl

/-- **C6.** For every sequence of K upload tasks with an arbitrary pattern
of per-task failures, the dispatcher processes and reports all K tasks —
none lost, none duplicated: the sequential branch reports them exactly in
walk order, the pooled branch reports a permutation of them (whatever
completion order the scheduler picks), and every task's own result — fixed
by its own outcome alone, since `upload_file` catches the client error
inside the task — appears among the reported results in both modes. -/
theorem C6_dispatcher_reports_every_task :
    ∀ (outcome : PyTask → UploadOutcome) (tasks : List PyTask) (ord : List PyTask),
      (dispatch_seq outcome tasks).map UploadResult.task = tasks ∧
      ((dispatch_pool outcome tasks ord).map UploadResult.task).Perm tasks ∧
      (∀ t, t ∈ tasks →
        upload_file outcome t ∈ dispatch_seq outcome tasks ∧
          upload_file outcome t ∈ dispatch_pool outcome tasks ord) := by
  intro outcome tasks ord
  have hmap : ∀ l : List PyTask,
      (l.map (upload_file outcome)).map UploadResult.task = l := by
    intro l
    rw [List.map_map]
    have h : UploadResult.task ∘ upload_file outcome = id :=
      funext (fun t => task_upload_file outcome t)
    rw [h, List.map_id]
  refine ⟨hmap tasks, ?_, ?_⟩
  · simp only [dispatch_pool]
    split
    · rename_i h
      rw [hmap ord]
      exact h
    · rw [hmap tasks]
  · intro t ht
    refine ⟨List.mem_map_of_mem _ ht, ?_⟩
    simp only [dispatch_pool]
    split
    · rename_i h
      exact List.mem_map_of_mem _ (h.mem_iff.mpr ht)
    · exact List.mem_map_of_mem _ ht

/-- **C6 witness.** The dispatcher theorem at a concrete input: three tasks
of which the middle one fails, pooled completion order reversed — the failed
task's own (failure) result is reported in both modes, the sequential report
lists the three tasks in walk order, and the pooled report is a permutation
of them. -/
theorem C6_dispatcher_reports_every_task_witness :
    upload_file
        (fun t => if t.dest_key = "python/b.py" then UploadOutcome.err "boom"
                  else UploadOutcome.ok)
        ⟨⟨["b.py"], false, true⟩, "python/b.py"⟩
      ∈ dispatch_seq
        (fun t => if t.dest_key = "python/b.py" then UploadOutcome.err "boom"
                  else UploadOutcome.ok)
        [⟨⟨["a.py"], false, true⟩, "python/a.py"⟩,
          ⟨⟨["b.py"], false, true⟩, "python/b.py"⟩,
          ⟨⟨["c.py"], false, true⟩, "python/c.py"⟩] ∧
    upload_file
        (fun t => if t.dest_key = "python/b.py" then UploadOutcome.err "boom"
                  else UploadOutcome.ok)
        ⟨⟨["b.py"], false, true⟩, "python/b.py"⟩
      ∈ dispatch_pool
        (fun t => if t.dest_key = "python/b.py" then UploadOutcome.err "boom"
                  else UploadOutcome.ok)
        [⟨⟨["a.py"], false, true⟩, "python/a.py"⟩,
          ⟨⟨["b.py"], false, true⟩, "python/b.py"⟩,
          ⟨⟨["c.py"], false, true⟩, "python/c.py"⟩]
        [⟨⟨["c.py"], false, true⟩, "python/c.py"⟩,
          ⟨⟨["b.py"], false, true⟩, "python/b.py"⟩,
          ⟨⟨["a.py"], false, true⟩, "python/a.py"⟩] :=
  (C6_dispatcher_reports_every_task
      (fun t => if t.dest_key = "python/b.py" then UploadOutcome.err "boom"
                else UploadOutcome.ok)
      [⟨⟨["a.py"], false, true⟩, "python/a.py"⟩,
        ⟨⟨["b.py"], false, true⟩, "python/b.py"⟩,
        ⟨⟨["c.py"], false, true⟩, "python/c.py"⟩]
      [⟨⟨["c.py"], false, true⟩, "python/c.py"⟩,
        ⟨⟨["b.py"], false, true⟩, "python/b.py"⟩,
        ⟨⟨["a.py"], false, true⟩, "python/a.py"⟩]).2.2
    ⟨⟨["b.py"], false, true⟩, "python/b.py"⟩ (by decide)

/-- **C7.** For every file name and every supplied mapping,
` determine_prefix` checks the mapping first with the lowercased extension
including the leading dot (`mapping_key`), then with the dots stripped
(`mapping_key_nodot`), returning the first match immediately; the built-in
defaults are consulted only when neither lookup matches — so a supplied
mapping entry for an extension takes precedence over the defaults. -/
theorem C7_supplied_mapping_takes_precedence :
    ∀ (name : String) (m : Mapping),
      (∀ v, List.lookup (mapping_key name) m = some v →
        determine_prefix name (some m) = some v) ∧
      (List.lookup (mapping_key name) m = none →
        ∀ v, List.lookup (mapping_key_nodot name) m = some v →
          determine_prefix name (some m) = some v) ∧
      (List.lookup (mapping_key name) m = none →
        List.lookup (mapping_key_nodot name) m = none →
        determine_prefix name (some m) = determine_prefix name none) := by
  intro name m
  by_cases hm : m = []
  · subst hm
    exact ⟨fun v hv => by simp [List.lookup] at hv,
      fun h1 v hv => by simp [List.lookup] at hv,
      fun _ _ => by simp [ determine_prefix]⟩
  · refine ⟨fun v hv => ?_, fun h1 v hv => ?_, fun h1 h2 => ?_⟩
    · rw [determine_prefix_closed_form name m hm, hv]
    · rw [determine_prefix_closed_form name m hm, h1, hv]
    · rw [determine_prefix_closed_form name m hm, h1, h2]
      rfl

/-- **C7 witness.** The precedence theorem at concrete inputs: a `.py`
mapping entry with the dot wins; without the dot it wins when the dotted key
is absent; and with an unrelated mapping the defaults decide, exactly as
with no mapping. -/
theorem C7_supplied_mapping_takes_precedence_witness :
    determine_prefix "a.py" (some [(".py", "mapped")]) = some "mapped" ∧
    determine_prefix "a.py" (some [("py", "nodot")]) = some "nodot" ∧
    determine_prefix "a.py" (some [("txt", "z")]) = determine_prefix "a.py" none :=
  ⟨(C7_supplied_mapping_takes_precedence "a.py" [(".py", "mapped")]).1 "mapped"
      (by decide),
    (C7_supplied_mapping_takes_precedence "a.py" [("py", "nodot")]).2.1 (by decide)
      "nodot" (by decide),
    (C7_supplied_mapping_takes_precedence "a.py" [("txt", "z")]).2.2 (by decide)
      (by decide)⟩

/-- **C8.** Every task the classification block constructs carries the
destination key `prefix.rstrip('/') + "/" + rel.as_posix()`: the classified
prefix with trailing slashes stripped, joined by a forward slash to the
relative path rendered with forward-slash separators (`joinSlash`, the
posix rendering, independent of the host separator convention); in
particular for the prefix `python` and relative path `sub/dir/script.py`
the key is exactly `python/sub/dir/script.py`. -/
theorem C8_destination_key_construction :
    (∀ (m : Option Mapping) (p : Entry) (t : PyTask),
      classify_entry m p = some t →
      ∃ pfx, determine_prefix p.name m = some pfx ∧
        t.dest_key = rstripSlash pfx ++ "/" ++ joinSlash p.path) ∧
    classify_entry none ⟨["sub", "dir", "script.py"], false, true⟩
      = some ⟨⟨["sub", "dir", "script.py"], false, true⟩,
          "python/sub/dir/script.py"⟩ := by
  refine ⟨?_, by decide⟩
  intro m p t h
  unfold classify_entry at h
  by_cases hs : p.name = my_name
  · rw [if_pos hs] at h
    cases h
  · rw [if_neg hs] at h
    split at h
    · exact Option.noConfusion h
    · rename_i pfx hp
      split at h
      · exact Option.noConfusion h
      · injection h with h2
        subst h2
        exact ⟨pfx, hp, rfl⟩

/-- **C8 witness.** The key-construction theorem applied at the concrete
entry `sub/dir/script.py` with no mapping, via the concrete evaluation in
the theorem's second conjunct. -/
theorem C8_destination_key_construction_witness :
    ∃ pfx, determine_prefix
          (Entry.name ⟨["sub", "dir", "script.py"], false, true⟩) none = some pfx ∧
      (⟨⟨["sub", "dir", "script.py"], false, true⟩,
          "python/sub/dir/script.py"⟩ : PyTask).dest_key
        = rstripSlash pfx ++ "/"
            ++ joinSlash (Entry.path ⟨["sub", "dir", "script.py"], false, true⟩) :=
  C8_destination_key_construction.1 none ⟨["sub", "dir", "script.py"], false, true⟩
    ⟨⟨["sub", "dir", "script.py"], false, true⟩, "python/sub/dir/script.py"⟩
    C8_destination_key_construction.2

/-- **C9 counterexample.** The claim says every constructed task's
destination key is non-empty and does not begin with a path separator, for
every prefix produced by classification, including prefixes supplied via a
user mapping.  A user mapping may map `.py` to the prefix `/`; the block
then constructs a task (the prefix `/` is truthy) whose key is `/a.py`,
which begins with a path separator. -/
theorem C9_mapping_slash_key_begins_with_sep :
    classify_entry (some [(".py", "/")]) ⟨["a.py"], false, true⟩
        = some ⟨⟨["a.py"], false, true⟩, "/a.py"⟩ ∧
      beginsWithSep "/a.py" = true := by
  exact ⟨rfl, rfl⟩

/-- **C9 (amended).** Every constructed upload task has a non-empty
destination key; and the key does not begin with a path separator provided
the classified prefix, after stripping trailing slashes, is non-empty and
does not itself begin with a separator — which holds for the built-in
default prefixes, but can fail for a prefix supplied via a user mapping
(e.g. `/`). -/
theorem C9_key_invariant_amended :
    ∀ (m : Option Mapping) (p : Entry) (t : PyTask),
      classify_entry m p = some t →
      t.dest_key ≠ "" ∧
      (∀ pfx, determine_prefix p.name m = some pfx →
        rstripSlash pfx ≠ "" → beginsWithSep (rstripSlash pfx) = false →
        beginsWithSep t.dest_key = false) := by
  intro m p t h
  unfold classify_entry at h
  by_cases hs : p.name = my_name
  · rw [if_pos hs] at h
    cases h
  · rw [if_neg hs] at h
    split at h
    · exact Option.noConfusion h
    · rename_i pfx0 hp
      split at h
      · exact Option.noConfusion h
      · injection h with h2
        subst h2
        refine ⟨append_sep_ne_empty _ _, ?_⟩
        intro pfx hp2 hne hsep
        rw [hp] at hp2
        injection hp2 with h3
        subst h3
        unfold beginsWithSep at hsep ⊢
        rw [data_append_sep]
        cases hcd : (rstripSlash pfx0).data with
        | nil => exact absurd (String.ext (by rw [hcd])) hne
        | cons c cs =>
          rw [hcd] at hsep
          simpa using hsep

/-- **C9 witness.** The amended invariant applied at the concrete default
classification of `a.py`: key `python/a.py`, non-empty and not beginning
with a separator. -/
theorem C9_key_invariant_amended_witness :
    (⟨⟨["a.py"], false, true⟩, "python/a.py"⟩ : PyTask).dest_key ≠ "" ∧
    beginsWithSep
        (⟨⟨["a.py"], false, true⟩, "python/a.py"⟩ : PyTask).dest_key = false := by
  have h := C9_key_invariant_amended none ⟨["a.py"], false, true⟩
    ⟨⟨["a.py"], false, true⟩, "python/a.py"⟩ (by decide)
  exact ⟨h.1, h.2 "python" (by decide) (by decide) (by decide)⟩

/-- **C10.** Classification against the built-in default set is
case-insensitive: whenever two file names have extensions that agree after
ASCII lowercasing, ` determine_prefix` (with no supplied mapping) classifies
them identically; in particular `a.PY` and `a.py` both classify to
`python`. -/
theorem C10_default_classification_case_insensitive :
    (∀ (n1 n2 : String),
      strLower (pySuffix n1) = strLower (pySuffix n2) →
      determine_prefix n1 none = determine_prefix n2 none) ∧
    determine_prefix "a.PY" none = some "python" ∧
    determine_prefix "a.py" none = some "python" := by
  refine ⟨?_, by decide, by decide⟩
  intro n1 n2 h
  have e1 : determine_prefix n1 none = builtin_defaults (strLower (pySuffix n1)) := rfl
  have e2 : determine_prefix n2 none = builtin_defaults (strLower (pySuffix n2)) := rfl
  rw [e1, e2, h]

/-- **C10 witness.** The case-insensitivity theorem applied at `a.PY` and
`a.py`. -/
theorem C10_default_classification_case_insensitive_witness :
    determine_prefix "a.PY" none = determine_prefix "a.py" none :=
  C10_default_classification_case_insensitive.1 "a.PY" "a.py" (by decide)

end AutomateS3
